import Mathlib

/-!
# Verification of the SmartThings MCP server (`smartthings_mcp.py`)

Shallow embedding of the tool-dispatch and command-translation layer:
the `SmartThingsClient` operations, the TV-capability classification,
the tool catalog, the tool-call dispatcher and the startup sequence.

Python dictionaries and JSON payloads are modelled by the `JsonVal`
type; Python exceptions are modelled by `Except String`, carrying the
exception text (messages of built-in exceptions are abbreviated where
no behaviour depends on their wording).  HTTP transport is modelled by
a `ClientBehavior` function from requests to outcomes, and every
client operation also returns the list of HTTP requests it issued, so
that theorems can speak about which commands were sent.
-/

set_option autoImplicit false

/-- A JSON value / Python object, as handled by the server.  Numbers are
modelled as integers (every number the server handles is an integer). -/
inductive JsonVal where
  | null
  | bool (b : Bool)
  | num (n : Int)
  | str (s : String)
  | arr (items : List JsonVal)
  | obj (fields : List (String × JsonVal))

/-- Python truthiness (`if x:`): `None`, `False`, `0`, `""`, `[]` and
`{}` are falsy, everything else is truthy. -/
def pyTruthy : JsonVal → Bool
  | .null => false
  | .bool b => b
  | .num n => n != 0
  | .str s => !s.isEmpty
  | .arr items => !items.isEmpty
  | .obj fields => !fields.isEmpty

mutual

/-- JSON rendering of a value.  Abstracts Python's
`json.dumps(..., indent=2)`: the output is compact rather than
indented; no verified property depends on the rendered text of a
successfully fetched value. -/
def jsonDumps : JsonVal → String
  | .null => "null"
  | .bool b => if b then "true" else "false"
  | .num n => toString n
  | .str s => "\"" ++ s ++ "\""
  | .arr items => "[" ++ jsonDumpsList items ++ "]"
  | .obj fields => "\x7b" ++ jsonDumpsFields fields ++ "\x7d"

def jsonDumpsList : List JsonVal → String
  | [] => ""
  | [x] => jsonDumps x
  | x :: xs => jsonDumps x ++ ", " ++ jsonDumpsList xs

def jsonDumpsFields : List (String × JsonVal) → String
  | [] => ""
  | [(k, v)] => "\"" ++ k ++ "\": " ++ jsonDumps v
  | (k, v) :: xs => "\"" ++ k ++ "\": " ++ jsonDumps v ++ ", " ++ jsonDumpsFields xs

end

/-- Python `str()` of a value, as interpolated into f-strings.  Scalar
cases are exact; container cases are abbreviated by the JSON rendering
(no verified property interpolates a container). -/
def pyStr : JsonVal → String
  | .str s => s
  | .num n => toString n
  | .bool b => if b then "True" else "False"
  | .null => "None"
  | v => jsonDumps v

/-- Python `x.get(key, default)`: on a dictionary, the value under the
first matching key or the default; on any other value, raises
`AttributeError`. -/
def pyGetD (v : JsonVal) (key : String) (dflt : JsonVal) : Except String JsonVal :=
  match v with
  | .obj fields => .ok ((fields.lookup key).getD dflt)
  | _ => .error ("object has no attribute 'get'")

/-- Python `xs[0]`: the first element of a list, raising `IndexError`
on an empty list and `TypeError` on a non-list. -/
def pyIndex0 (v : JsonVal) : Except String JsonVal :=
  match v with
  | .arr (x :: _) => .ok x
  | .arr [] => .error "list index out of range"
  | _ => .error "object is not subscriptable"

/-- Python iteration `for x in v`: the elements of a list, raising
`TypeError` on a non-list value. -/
def pyIter (v : JsonVal) : Except String (List JsonVal) :=
  match v with
  | .arr items => .ok items
  | _ => .error "object is not iterable"

/-- Python `len(v)`: defined for sized containers and strings, raising
`TypeError` otherwise. -/
def pyLen (v : JsonVal) : Except String Nat :=
  match v with
  | .arr items => .ok items.length
  | .obj fields => .ok fields.length
  | .str s => .ok s.length
  | _ => .error "object has no len"

/-- Python `arguments[key]` on the tool-call argument mapping: the
value, or a raised `KeyError` whose text is the quoted key. -/
def pyKeyGet (args : List (String × JsonVal)) (key : String) : Except String JsonVal :=
  match args.lookup key with
  | some v => .ok v
  | none => .error ("'" ++ key ++ "'")

/-! ## Device API Client (`SmartThingsClient`) -/

/-- One HTTP request issued through `_make_request`: method, endpoint
(relative to the base URL) and optional JSON body. -/
structure Request where
  method : String
  endpoint : String
  data : Option JsonVal

/-- The transport behaviour the client runs against: each request
either yields a parsed JSON response or raises (modelling
`aiohttp.ClientError` / HTTP error statuses, which `_make_request`
re-raises). -/
structure ClientBehavior where
  request : Request → Except String JsonVal

/-- The request issued by `get_devices`. -/
def listDevicesRequest : Request :=
  { method := "GET", endpoint := "/devices", data := none }

/-- The request issued by `get_device` for a device id. -/
def getDeviceRequest (device_id : String) : Request :=
  { method := "GET", endpoint := "/devices/" ++ device_id, data := none }

/-- The request issued by `get_device_status` for a device id. -/
def getDeviceStatusRequest (device_id : String) : Request :=
  { method := "GET", endpoint := "/devices/" ++ device_id ++ "/status", data := none }

/-- The request issued by `send_device_command`: a POST of
`{"commands": commands}` to the device's commands endpoint. -/
def sendCommandRequest (device_id : String) (commands : JsonVal) : Request :=
  { method := "POST", endpoint := "/devices/" ++ device_id ++ "/commands",
    data := some (JsonVal.obj [("commands", commands)]) }

/-- `SmartThingsClient.get_devices`: GET `/devices`, returning
`response.get("items", [])`; any raised exception (transport failure,
or `.get` on a non-dictionary response) is caught and an empty list
returned.  Also returns the requests issued. -/
def get_devices (c : ClientBehavior) : JsonVal × List Request :=
  (match c.request listDevicesRequest with
   | .error _ => JsonVal.arr []
   | .ok resp =>
     match pyGetD resp "items" (JsonVal.arr []) with
     | .ok items => items
     | .error _ => JsonVal.arr [], [listDevicesRequest])

/-- `SmartThingsClient.get_device`: GET one device, returning the
response, or `None` when the request raises. -/
def get_device (c : ClientBehavior) (device_id : String) : Option JsonVal × List Request :=
  (match c.request (getDeviceRequest device_id) with
   | .ok resp => some resp
   | .error _ => none, [getDeviceRequest device_id])

/-- `SmartThingsClient.get_device_status`: GET a device's status,
returning the response, or `None` when the request raises. -/
def get_device_status (c : ClientBehavior) (device_id : String) : Option JsonVal × List Request :=
  (match c.request (getDeviceStatusRequest device_id) with
   | .ok resp => some resp
   | .error _ => none, [getDeviceStatusRequest device_id])

/-- `SmartThingsClient.send_device_command`: POST the command batch to
the device's commands endpoint; a raised exception is logged and
re-raised, so the outcome is the transport outcome itself. -/
def send_device_command (c : ClientBehavior) (device_id : String) (commands : JsonVal) :
    Except String JsonVal × List Request :=
  (c.request (sendCommandRequest device_id commands), [sendCommandRequest device_id commands])

/-! ## TV-capability classification (`get_tv_devices`) -/

/-- The fixed reference capability set of the TV filter. -/
def tvCapabilityList : List String :=
  ["switch", "audioVolume", "mediaInputSource", "tvChannel"]

/-- `capability_names` for one device:
`[cap.get("id", "") for cap in device.get("components", [{}])[0].get("capabilities", [])]`.
Raises (`IndexError`) when the device carries an explicitly empty
`components` list; when the `components` key is absent the default
`[{}]` yields an empty capability list. -/
def firstComponentCapIds (device : JsonVal) : Except String (List JsonVal) := do
  let comps ← pyGetD device "components" (JsonVal.arr [JsonVal.obj []])
  let first ← pyIndex0 comps
  let caps ← pyGetD first "capabilities" (JsonVal.arr [])
  let capList ← pyIter caps
  capList.mapM (fun cap => pyGetD cap "id" (JsonVal.str ""))

/-- Python `s in names` for a string `s` and a list of values: `==`
between a string and a non-string value is `False`. -/
def pyStrIn (s : String) (names : List JsonVal) : Bool :=
  names.any (fun v => match v with | .str t => t == s | _ => false)

/-- The TV test of one device:
`any(cap in capability_names for cap in ["switch", "audioVolume", "mediaInputSource", "tvChannel"])`. -/
def isTVDevice (device : JsonVal) : Except String Bool := do
  let names ← firstComponentCapIds device
  pure (tvCapabilityList.any (fun cap => pyStrIn cap names))

/-- The filtering loop of `get_tv_devices` over an already fetched
device list, kept in order; a raised exception at any device aborts
the whole classification (there is no try/except in `get_tv_devices`). -/
def classifyTVDevices : List JsonVal → Except String (List JsonVal)
  | [] => .ok []
  | d :: rest => do
    let b ← isTVDevice d
    let tail ← classifyTVDevices rest
    pure (if b then d :: tail else tail)

/-- `SmartThingsClient.get_tv_devices`: fetch all devices (failures
absorbed into an empty list by `get_devices`) and filter them by the
TV test. -/
def get_tv_devices (c : ClientBehavior) : Except String (List JsonVal) × List Request :=
  let (devices, reqs) := get_devices c
  ((do
     let ds ← pyIter devices
     classifyTVDevices ds), reqs)

/-! ## Tool catalog (`handle_list_tools`) -/

/-- One advertised tool: name, human description and JSON-schema
argument specification, as returned by `handle_list_tools`. -/
structure ToolDecl where
  name : String
  description : String
  inputSchema : JsonVal

/-- A string-typed schema property with a description. -/
def strProp (descr : String) : JsonVal :=
  JsonVal.obj [("type", JsonVal.str "string"), ("description", JsonVal.str descr)]

/-- The static nine-tool catalog returned by `handle_list_tools`, with
the JSON schemas transcribed field by field. -/
def handle_list_tools : List ToolDecl :=
  [ { name := "list_devices",
      description := "List all SmartThings devices",
      inputSchema := JsonVal.obj
        [("type", JsonVal.str "object"),
         ("properties", JsonVal.obj []),
         ("required", JsonVal.arr [])] },
    { name := "list_tv_devices",
      description := "List all TV devices in SmartThings",
      inputSchema := JsonVal.obj
        [("type", JsonVal.str "object"),
         ("properties", JsonVal.obj []),
         ("required", JsonVal.arr [])] },
    { name := "get_device_info",
      description := "Get detailed information about a specific device",
      inputSchema := JsonVal.obj
        [("type", JsonVal.str "object"),
         ("properties", JsonVal.obj [("device_id", strProp "The device ID")]),
         ("required", JsonVal.arr [JsonVal.str "device_id"])] },
    { name := "get_device_status",
      description := "Get the current status of a device",
      inputSchema := JsonVal.obj
        [("type", JsonVal.str "object"),
         ("properties", JsonVal.obj [("device_id", strProp "The device ID")]),
         ("required", JsonVal.arr [JsonVal.str "device_id"])] },
    { name := "turn_tv_on_off",
      description := "Turn Samsung TV on or off",
      inputSchema := JsonVal.obj
        [("type", JsonVal.str "object"),
         ("properties", JsonVal.obj
           [("device_id", strProp "The TV device ID"),
            ("action", JsonVal.obj
              [("type", JsonVal.str "string"),
               ("enum", JsonVal.arr [JsonVal.str "on", JsonVal.str "off"]),
               ("description", JsonVal.str "Turn the TV on or off")])]),
         ("required", JsonVal.arr [JsonVal.str "device_id", JsonVal.str "action"])] },
    { name := "change_tv_volume",
      description := "Change Samsung TV volume",
      inputSchema := JsonVal.obj
        [("type", JsonVal.str "object"),
         ("properties", JsonVal.obj
           [("device_id", strProp "The TV device ID"),
            ("volume", JsonVal.obj
              [("type", JsonVal.str "integer"),
               ("minimum", JsonVal.num 0),
               ("maximum", JsonVal.num 100),
               ("description", JsonVal.str "Volume level (0-100)")])]),
         ("required", JsonVal.arr [JsonVal.str "device_id", JsonVal.str "volume"])] },
    { name := "mute_tv",
      description := "Mute or unmute Samsung TV",
      inputSchema := JsonVal.obj
        [("type", JsonVal.str "object"),
         ("properties", JsonVal.obj
           [("device_id", strProp "The TV device ID"),
            ("mute", JsonVal.obj
              [("type", JsonVal.str "boolean"),
               ("description", JsonVal.str "True to mute, False to unmute")])]),
         ("required", JsonVal.arr [JsonVal.str "device_id", JsonVal.str "mute"])] },
    { name := "change_tv_channel",
      description := "Change Samsung TV channel",
      inputSchema := JsonVal.obj
        [("type", JsonVal.str "object"),
         ("properties", JsonVal.obj
           [("device_id", strProp "The TV device ID"),
            ("channel", strProp "Channel number or name")]),
         ("required", JsonVal.arr [JsonVal.str "device_id", JsonVal.str "channel"])] },
    { name := "change_tv_input",
      description := "Change Samsung TV input source",
      inputSchema := JsonVal.obj
        [("type", JsonVal.str "object"),
         ("properties", JsonVal.obj
           [("device_id", strProp "The TV device ID"),
            ("input_source", strProp "Input source (e.g., 'HDMI1', 'HDMI2', 'USB', etc.)")]),
         ("required", JsonVal.arr
           [JsonVal.str "device_id", JsonVal.str "input_source"])] } ]

/-- The required-argument names a tool's schema declares. -/
def toolRequired (t : ToolDecl) : List String :=
  match t.inputSchema with
  | .obj fields =>
    match fields.lookup "required" with
    | some (.arr ks) => ks.filterMap (fun k => match k with | .str s => some s | _ => none)
    | _ => []
  | _ => []

/-- The `minimum`/`maximum` bounds a tool's schema declares on its
`volume` property, when present. -/
def schemaVolumeBounds (t : ToolDecl) : Option (Int × Int) :=
  match t.inputSchema with
  | .obj fields =>
    match fields.lookup "properties" with
    | some (.obj props) =>
      match props.lookup "volume" with
      | some (.obj vfields) =>
        match vfields.lookup "minimum", vfields.lookup "maximum" with
        | some (.num lo), some (.num hi) => some (lo, hi)
        | _, _ => none
      | _ => none
    | _ => none
  | _ => none

/-! ## Tool dispatch (`handle_call_tool`) -/

/-- A protocol content item returned to the caller (the server only
ever produces text content). -/
inductive Content where
  | text (s : String)
  deriving DecidableEq

/-- The fixed message returned while the client is uninitialized. -/
def uninitializedText : String :=
  "SmartThings client not initialized. Please check your access token."

/-- The command batch built by the `turn_tv_on_off` branch. -/
def turnOnOffCommands (action : JsonVal) : JsonVal :=
  JsonVal.arr [JsonVal.obj
    [("component", JsonVal.str "main"),
     ("capability", JsonVal.str "switch"),
     ("command", action)]]

/-- The command batch built by the `change_tv_volume` branch. -/
def volumeCommands (volume : JsonVal) : JsonVal :=
  JsonVal.arr [JsonVal.obj
    [("component", JsonVal.str "main"),
     ("capability", JsonVal.str "audioVolume"),
     ("command", JsonVal.str "setVolume"),
     ("arguments", JsonVal.arr [volume])]]

/-- The command batch built by the `mute_tv` branch:
`"mute" if mute else "unmute"`, with no arguments list. -/
def muteCommands (mute : JsonVal) : JsonVal :=
  JsonVal.arr [JsonVal.obj
    [("component", JsonVal.str "main"),
     ("capability", JsonVal.str "audioVolume"),
     ("command", JsonVal.str (if pyTruthy mute then "mute" else "unmute"))]]

/-- The command batch built by the `change_tv_channel` branch. -/
def channelCommands (channel : JsonVal) : JsonVal :=
  JsonVal.arr [JsonVal.obj
    [("component", JsonVal.str "main"),
     ("capability", JsonVal.str "tvChannel"),
     ("command", JsonVal.str "setTvChannel"),
     ("arguments", JsonVal.arr [channel])]]

/-- The command batch built by the `change_tv_input` branch. -/
def inputCommands (input_source : JsonVal) : JsonVal :=
  JsonVal.arr [JsonVal.obj
    [("component", JsonVal.str "main"),
     ("capability", JsonVal.str "mediaInputSource"),
     ("command", JsonVal.str "setInputSource"),
     ("arguments", JsonVal.arr [input_source])]]

/-- The body of the `try:` block of `handle_call_tool`: the `elif`
chain over the tool name.  Returns the contents produced, or the text
of a raised exception, together with the HTTP requests issued before
returning or raising. -/
def dispatch (c : ClientBehavior) (name : String) (args : List (String × JsonVal)) :
    Except String (List Content) × List Request :=
  if name = "list_devices" then
    let (devices, reqs) := get_devices c
    (.ok [Content.text (jsonDumps devices)], reqs)
  else if name = "list_tv_devices" then
    let (tv, reqs) := get_tv_devices c
    (match tv with
     | .ok l => .ok [Content.text (jsonDumps (JsonVal.arr l))]
     | .error e => .error e, reqs)
  else if name = "get_device_info" then
    match pyKeyGet args "device_id" with
    | .error e => (.error e, [])
    | .ok device_id =>
      let (info, reqs) := get_device c (pyStr device_id)
      (match info with
       | some v =>
         if pyTruthy v then .ok [Content.text (jsonDumps v)]
         else .ok [Content.text ("Device " ++ pyStr device_id ++ " not found")]
       | none => .ok [Content.text ("Device " ++ pyStr device_id ++ " not found")], reqs)
  else if name = "get_device_status" then
    match pyKeyGet args "device_id" with
    | .error e => (.error e, [])
    | .ok device_id =>
      let (status, reqs) := get_device_status c (pyStr device_id)
      (match status with
       | some v =>
         if pyTruthy v then .ok [Content.text (jsonDumps v)]
         else .ok [Content.text ("Could not get status for device " ++ pyStr device_id)]
       | none =>
         .ok [Content.text ("Could not get status for device " ++ pyStr device_id)], reqs)
  else if name = "turn_tv_on_off" then
    match pyKeyGet args "device_id" with
    | .error e => (.error e, [])
    | .ok device_id =>
      match pyKeyGet args "action" with
      | .error e => (.error e, [])
      | .ok action =>
        let (result, reqs) := send_device_command c (pyStr device_id) (turnOnOffCommands action)
        (match result with
         | .ok r =>
           .ok [Content.text ("TV turned " ++ pyStr action ++ ". Result: " ++ jsonDumps r)]
         | .error e => .error e, reqs)
  else if name = "change_tv_volume" then
    match pyKeyGet args "device_id" with
    | .error e => (.error e, [])
    | .ok device_id =>
      match pyKeyGet args "volume" with
      | .error e => (.error e, [])
      | .ok volume =>
        let (result, reqs) := send_device_command c (pyStr device_id) (volumeCommands volume)
        (match result with
         | .ok r =>
           .ok [Content.text ("Volume set to " ++ pyStr volume ++ ". Result: " ++ jsonDumps r)]
         | .error e => .error e, reqs)
  else if name = "mute_tv" then
    match pyKeyGet args "device_id" with
    | .error e => (.error e, [])
    | .ok device_id =>
      match pyKeyGet args "mute" with
      | .error e => (.error e, [])
      | .ok mute =>
        let (result, reqs) := send_device_command c (pyStr device_id) (muteCommands mute)
        (match result with
         | .ok r =>
           .ok [Content.text ("TV " ++ (if pyTruthy mute then "muted" else "unmuted") ++
             ". Result: " ++ jsonDumps r)]
         | .error e => .error e, reqs)
  else if name = "change_tv_channel" then
    match pyKeyGet args "device_id" with
    | .error e => (.error e, [])
    | .ok device_id =>
      match pyKeyGet args "channel" with
      | .error e => (.error e, [])
      | .ok channel =>
        let (result, reqs) := send_device_command c (pyStr device_id) (channelCommands channel)
        (match result with
         | .ok r =>
           .ok [Content.text ("Channel changed to " ++ pyStr channel ++ ". Result: " ++
             jsonDumps r)]
         | .error e => .error e, reqs)
  else if name = "change_tv_input" then
    match pyKeyGet args "device_id" with
    | .error e => (.error e, [])
    | .ok device_id =>
      match pyKeyGet args "input_source" with
      | .error e => (.error e, [])
      | .ok input_source =>
        let (result, reqs) := send_device_command c (pyStr device_id) (inputCommands input_source)
        (match result with
         | .ok r =>
           .ok [Content.text ("Input changed to " ++ pyStr input_source ++ ". Result: " ++
             jsonDumps r)]
         | .error e => .error e, reqs)
  else
    (.ok [Content.text ("Unknown tool: " ++ name)], [])

/-- `handle_call_tool`: reject with the fixed message while the client
is absent; otherwise run the dispatch body and convert any raised
exception into the single error-content item
`Error executing <tool>: <message>`.  Returns the contents and the
HTTP requests issued. -/
def handle_call_tool (client : Option ClientBehavior) (name : String)
    (args : List (String × JsonVal)) : List Content × List Request :=
  match client with
  | none => ([Content.text uninitializedText], [])
  | some c =>
    let (res, reqs) := dispatch c name args
    (match res with
     | .ok contents => contents
     | .error e => [Content.text ("Error executing " ++ name ++ ": " ++ e)], reqs)

/-! ## Startup (`SmartThingsMCPServer.run`) -/

/-- Outcome of the startup sequence: a fatal non-zero exit, or serving
the protocol with the probed device count logged. -/
inductive RunOutcome where
  | exitNonZero
  | serve (deviceCount : Nat)
  deriving DecidableEq

/-- `SmartThingsMCPServer.run`: exit non-zero when the access token is
absent; otherwise construct the client (the client is assigned before
the probe), probe with `get_devices` — which absorbs transport
failures into an empty list and so cannot raise them — and serve.
The `except` around the probe fires only when `len(devices)` itself
raises (a non-sized `items` value in a successful response). -/
def run (token : Option String) (c : ClientBehavior) : RunOutcome :=
  match token with
  | none => .exitNonZero
  | some _ =>
    let (devices, _) := get_devices c
    match pyLen devices with
    | .ok n => .serve n
    | .error _ => .exitNonZero

/-! ## Concrete behaviours and devices used by witnesses and counterexamples -/

/-- A transport on which every request succeeds with a `null` body. -/
def okBehavior : ClientBehavior := ⟨fun _ => .ok JsonVal.null⟩

/-- A transport on which every request raises. -/
def failBehavior : ClientBehavior := ⟨fun _ => .error "Cannot connect to host"⟩

/-- A transport on which every request succeeds with an empty JSON
object body. -/
def emptyDeviceBehavior : ClientBehavior := ⟨fun _ => .ok (JsonVal.obj [])⟩

/-- A device whose first component carries the `switch` capability. -/
def switchDevice : JsonVal :=
  JsonVal.obj [("components", JsonVal.arr
    [JsonVal.obj [("capabilities", JsonVal.arr
      [JsonVal.obj [("id", JsonVal.str "switch")]])]])]

/-- A device carrying an explicitly empty `components` list. -/
def emptyComponentsDevice : JsonVal :=
  JsonVal.obj [("components", JsonVal.arr [])]

/-- One canonical full-argument call per command tool, paired with the
command batch that call builds. -/
def commandToolCalls (X : String) : List (String × List (String × JsonVal) × JsonVal) :=
  [("turn_tv_on_off",
     [("device_id", JsonVal.str X), ("action", JsonVal.str "on")],
     turnOnOffCommands (JsonVal.str "on")),
   ("change_tv_volume",
     [("device_id", JsonVal.str X), ("volume", JsonVal.num 50)],
     volumeCommands (JsonVal.num 50)),
   ("mute_tv",
     [("device_id", JsonVal.str X), ("mute", JsonVal.bool true)],
     muteCommands (JsonVal.bool true)),
   ("change_tv_channel",
     [("device_id", JsonVal.str X), ("channel", JsonVal.str "5")],
     channelCommands (JsonVal.str "5")),
   ("change_tv_input",
     [("device_id", JsonVal.str X), ("input_source", JsonVal.str "HDMI1")],
     inputCommands (JsonVal.str "HDMI1"))]

/-! ## Theorems -/

/-- Python membership `s in names` holds exactly when the string value
`s` occurs in the list. -/
theorem pyStrIn_iff_mem (s : String) (names : List JsonVal) :
    pyStrIn s names = true ↔ JsonVal.str s ∈ names := by
  have hmatch : ∀ v : JsonVal,
      (match v with | JsonVal.str t => t == s | _ => false) = true ↔ JsonVal.str s = v := by
    intro v
    cases v with
    | str t =>
      simp only [beq_iff_eq, JsonVal.str.injEq]
      exact ⟨fun h => h.symm, fun h => h.symm⟩
    | null => exact iff_of_false (by simp) (fun h => JsonVal.noConfusion h)
    | bool b => exact iff_of_false (by simp) (fun h => JsonVal.noConfusion h)
    | num n => exact iff_of_false (by simp) (fun h => JsonVal.noConfusion h)
    | arr items => exact iff_of_false (by simp) (fun h => JsonVal.noConfusion h)
    | obj fields => exact iff_of_false (by simp) (fun h => JsonVal.noConfusion h)
  unfold pyStrIn
  rw [List.any_eq_true]
  constructor
  · rintro ⟨v, hv, hm⟩
    rw [← (hmatch v).mp hm] at hv
    exact hv
  · intro hmem
    exact ⟨_, hmem, (hmatch _).mpr rfl⟩

/-- C1 (counterexample): the classification is not total — on a device
whose `components` list is explicitly empty, `classifyTVDevices`
raises `IndexError` instead of returning a list. -/
theorem C1_counterexample :
    classifyTVDevices [emptyComponentsDevice] = .error "list index out of range" := rfl

/-- C1 (amended): for every device on which reading the first
component's capability identifiers succeeds — every device except one
whose `components` entry is present, non-defaulted and empty or
ill-typed — `classifyTVDevices [d]` returns a list that is non-empty
exactly when those identifiers intersect the fixed reference set
`{switch, audioVolume, mediaInputSource, tvChannel}`. -/
theorem C1_classify_iff (d : JsonVal) (names : List JsonVal)
    (h : firstComponentCapIds d = .ok names) :
    ∃ l, classifyTVDevices [d] = .ok l ∧
      (l ≠ [] ↔ ∃ cap ∈ tvCapabilityList, JsonVal.str cap ∈ names) := by
  have htv : isTVDevice d
      = (firstComponentCapIds d).bind
          (fun ns => .ok (tvCapabilityList.any (fun cap => pyStrIn cap ns))) := rfl
  rw [h] at htv
  have htv2 : isTVDevice d = .ok (tvCapabilityList.any (fun cap => pyStrIn cap names)) :=
    htv.trans rfl
  have hc : classifyTVDevices [d]
      = (isTVDevice d).bind (fun b => .ok (if b then [d] else [])) := rfl
  rw [htv2] at hc
  have hc2 : classifyTVDevices [d]
      = .ok (if tvCapabilityList.any (fun cap => pyStrIn cap names) then [d] else []) :=
    hc.trans rfl
  refine ⟨_, hc2, ?_⟩
  cases hb : tvCapabilityList.any (fun cap => pyStrIn cap names) with
  | true =>
    rw [List.any_eq_true] at hb
    obtain ⟨cap, hcap, hin⟩ := hb
    exact iff_of_true (by simp) ⟨cap, hcap, (pyStrIn_iff_mem cap names).mp hin⟩
  | false =>
    rw [List.any_eq_false] at hb
    refine iff_of_false (by simp) ?_
    rintro ⟨cap, hcap, hin⟩
    exact hb cap hcap ((pyStrIn_iff_mem cap names).mpr hin)

/-- C1 (witness): the amended classification theorem applied to a
concrete device carrying the `switch` capability. -/
theorem C1_witness :
    ∃ l, classifyTVDevices [switchDevice] = .ok l ∧
      (l ≠ [] ↔ ∃ cap ∈ tvCapabilityList, JsonVal.str cap ∈ [JsonVal.str "switch"]) :=
  C1_classify_iff switchDevice [JsonVal.str "switch"] rfl

/-- C2 (counterexample): a `change_tv_volume` call with `volume = 150`
is not rejected — the dispatch path invokes `send_device_command`,
issuing exactly one POST whose command batch carries the out-of-range
volume 150. -/
theorem C2_counterexample :
    (handle_call_tool (some okBehavior) "change_tv_volume"
      [("device_id", JsonVal.str "X"), ("volume", JsonVal.num 150)]).2
      = [sendCommandRequest "X" (volumeCommands (JsonVal.num 150))]
    ∧ (handle_call_tool (some okBehavior) "change_tv_volume"
      [("device_id", JsonVal.str "X"), ("volume", JsonVal.num 150)]).2 ≠ [] :=
  ⟨rfl, fun h => List.cons_ne_nil _ _ h⟩

/-- C2 (amended): the catalogued `change_tv_volume` schema declares
the bounds `minimum 0, maximum 100` on `volume`, but the dispatch
path itself performs no range check: for every volume value the call
invokes `send_device_command` exactly once with that value in the
command's argument list, so out-of-range rejection can only happen at
the schema-enforcing protocol boundary outside this code. -/
theorem C2_volume_forwarded :
    (∃ t ∈ handle_list_tools, t.name = "change_tv_volume"
        ∧ schemaVolumeBounds t = some (0, 100))
    ∧ ∀ (c : ClientBehavior) (X : String) (v : Int),
        (handle_call_tool (some c) "change_tv_volume"
          [("device_id", JsonVal.str X), ("volume", JsonVal.num v)]).2
        = [sendCommandRequest X (volumeCommands (JsonVal.num v))] := by
  constructor
  · have h5 : 5 < handle_list_tools.length := by decide
    exact ⟨handle_list_tools.get ⟨5, h5⟩, List.get_mem _ 5 h5, rfl, rfl⟩
  · intro c X v
    rfl

/-- C3 (counterexample): with a transport on which the probing
`GET /devices` raises, startup does not terminate — `get_devices`
absorbs the failure into an empty device list and the server proceeds
to serve. -/
theorem C3_counterexample :
    run (some "token") failBehavior = .serve 0
    ∧ run (some "token") failBehavior ≠ .exitNonZero :=
  ⟨rfl, fun h => RunOutcome.noConfusion h⟩

/-- C3 (amended): startup is fatal when the access token is missing;
a transport failure of the probing `listDevices` call, however, is
absorbed by `get_devices`, and startup proceeds to serve with zero
devices (the client having been assigned before the probe). -/
theorem C3_startup (t e : String) (c : ClientBehavior)
    (h : c.request listDevicesRequest = .error e) :
    run none c = .exitNonZero ∧ run (some t) c = .serve 0 := by
  refine ⟨rfl, ?_⟩
  have hg : get_devices c = (JsonVal.arr [], [listDevicesRequest]) := by
    unfold get_devices
    rw [h]
  show (match pyLen (get_devices c).1 with
        | .ok n => RunOutcome.serve n
        | .error _ => RunOutcome.exitNonZero) = RunOutcome.serve 0
  rw [hg]
  rfl

/-- C3 (witness): the amended startup theorem applied to the
all-failing transport. -/
theorem C3_witness :
    run none failBehavior = .exitNonZero
    ∧ run (some "token") failBehavior = .serve 0 :=
  C3_startup "token" "Cannot connect to host" failBehavior rfl

/-- C4: under a transport failure, the read `get_devices` returns an
empty sequence rather than raising, the write `send_device_command`
propagates the raised error, and each command tool whose
`send_device_command` raises returns exactly one text content item
`Error executing <tool>: <message>`, which begins with
`Error executing`. -/
theorem C4_error_handling (e : String) (c : ClientBehavior) :
    (c.request listDevicesRequest = .error e → (get_devices c).1 = JsonVal.arr [])
    ∧ (∀ (X : String) (commands : JsonVal),
        c.request (sendCommandRequest X commands) = .error e →
        (send_device_command c X commands).1 = .error e)
    ∧ (∀ (X name : String) (args : List (String × JsonVal)) (commands : JsonVal),
        (name, args, commands) ∈ commandToolCalls X →
        c.request (sendCommandRequest X commands) = .error e →
        (handle_call_tool (some c) name args).1
          = [Content.text ("Error executing " ++ name ++ ": " ++ e)]) := by
  refine ⟨?_, ?_, ?_⟩
  · intro h
    unfold get_devices
    rw [h]
  · intro X commands h
    unfold send_device_command
    rw [h]
  · intro X name args commands hmem h
    simp only [commandToolCalls, List.mem_cons, List.not_mem_nil, or_false] at hmem
    rcases hmem with ⟨rfl, rfl, rfl⟩ | ⟨rfl, rfl, rfl⟩ | ⟨rfl, rfl, rfl⟩ |
      ⟨rfl, rfl, rfl⟩ | ⟨rfl, rfl, rfl⟩ <;>
      simp [handle_call_tool, dispatch, send_device_command, pyKeyGet, pyStr, List.lookup, h]

/-- C4 (witness): the error-handling theorem applied to the
all-failing transport and the canonical `turn_tv_on_off` call. -/
theorem C4_witness :
    (get_devices failBehavior).1 = JsonVal.arr []
    ∧ (send_device_command failBehavior "X" (turnOnOffCommands (JsonVal.str "on"))).1
        = .error "Cannot connect to host"
    ∧ (handle_call_tool (some failBehavior) "turn_tv_on_off"
        [("device_id", JsonVal.str "X"), ("action", JsonVal.str "on")]).1
        = [Content.text ("Error executing " ++ "turn_tv_on_off" ++ ": "
            ++ "Cannot connect to host")] := by
  obtain ⟨h1, h2, h3⟩ := C4_error_handling "Cannot connect to host" failBehavior
  exact ⟨h1 rfl, h2 "X" _ rfl, h3 "X" "turn_tv_on_off" _ _ (List.Mem.head _) rfl⟩

/-- C5: a `turn_tv_on_off` call with a device id and an action in
`{on, off}` issues exactly one HTTP request: a POST to
`/devices/<id>/commands` whose batch is the single command
`{component: main, capability: switch, command: <action>}` with no
arguments list. -/
theorem C5_turn_tv_on_off (c : ClientBehavior) (X action : String)
    (_h : action = "on" ∨ action = "off") :
    (handle_call_tool (some c) "turn_tv_on_off"
      [("device_id", JsonVal.str X), ("action", JsonVal.str action)]).2
    = [{ method := "POST", endpoint := "/devices/" ++ X ++ "/commands",
         data := some (JsonVal.obj [("commands", JsonVal.arr [JsonVal.obj
           [("component", JsonVal.str "main"),
            ("capability", JsonVal.str "switch"),
            ("command", JsonVal.str action)]])]) }] := rfl

/-- C5 (witness): the command-construction theorem applied to a
concrete device id and the action `on`. -/
theorem C5_witness :
    (handle_call_tool (some okBehavior) "turn_tv_on_off"
      [("device_id", JsonVal.str "X"), ("action", JsonVal.str "on")]).2
    = [{ method := "POST", endpoint := "/devices/" ++ "X" ++ "/commands",
         data := some (JsonVal.obj [("commands", JsonVal.arr [JsonVal.obj
           [("component", JsonVal.str "main"),
            ("capability", JsonVal.str "switch"),
            ("command", JsonVal.str "on")]])]) }] :=
  C5_turn_tv_on_off okBehavior "X" "on" (Or.inl rfl)

/-- C6: a `mute_tv` call builds a single `audioVolume` command whose
verb is `mute` when the flag is true and `unmute` when it is false,
with no arguments list, sent in one POST to the device's commands
endpoint. -/
theorem C6_mute_tv (c : ClientBehavior) (X : String) (b : Bool) :
    (handle_call_tool (some c) "mute_tv"
      [("device_id", JsonVal.str X), ("mute", JsonVal.bool b)]).2
    = [{ method := "POST", endpoint := "/devices/" ++ X ++ "/commands",
         data := some (JsonVal.obj [("commands", JsonVal.arr [JsonVal.obj
           [("component", JsonVal.str "main"),
            ("capability", JsonVal.str "audioVolume"),
            ("command", JsonVal.str (if b then "mute" else "unmute"))]])]) }] := rfl

/-- C7: while the client is uninitialized, every tool call — any name,
catalogued or unknown, with any arguments — returns the fixed
uninitialized message, issues no HTTP request, and reaches neither the
unknown-tool nor the error branch. -/
theorem C7_uninitialized (name : String) (args : List (String × JsonVal)) :
    handle_call_tool none name args = ([Content.text uninitializedText], []) := rfl

/-- C8: when the `get_device` lookup raises and the client therefore
returns absent, `get_device_info` answers with the single not-found
text content item, letting no error escape. -/
theorem C8_device_not_found (c : ClientBehavior) (X e : String)
    (h : c.request (getDeviceRequest X) = .error e) :
    (handle_call_tool (some c) "get_device_info" [("device_id", JsonVal.str X)]).1
    = [Content.text ("Device " ++ X ++ " not found")] := by
  simp [handle_call_tool, dispatch, get_device, pyKeyGet, pyStr, h]

/-- C8 (witness): the not-found theorem applied to the all-failing
transport and a concrete device id. -/
theorem C8_witness :
    (handle_call_tool (some failBehavior) "get_device_info"
      [("device_id", JsonVal.str "abc")]).1
    = [Content.text ("Device " ++ "abc" ++ " not found")] :=
  C8_device_not_found failBehavior "abc" "Cannot connect to host" rfl

/-- C9: for every catalogued tool, a call whose argument mapping lacks
one of the tool's schema-declared required keys raises a local
`KeyError` that the outer boundary renders as the single content item
`Error executing <tool>: <message>`. -/
theorem C9_missing_arg (t : ToolDecl) (ht : t ∈ handle_list_tools) (c : ClientBehavior)
    (args : List (String × JsonVal))
    (h : ∃ k ∈ toolRequired t, args.lookup k = none) :
    ∃ msg, (handle_call_tool (some c) t.name args).1
      = [Content.text ("Error executing " ++ t.name ++ ": " ++ msg)] := by
  obtain ⟨k, hk, hnone⟩ := h
  simp only [handle_list_tools, List.mem_cons, List.not_mem_nil, or_false] at ht
  rcases ht with rfl | rfl | rfl | rfl | rfl | rfl | rfl | rfl | rfl
  · simp [toolRequired, List.lookup] at hk
  · simp [toolRequired, List.lookup] at hk
  · simp [toolRequired, List.lookup] at hk
    subst hk
    exact ⟨"'device_id'", by simp [handle_call_tool, dispatch, pyKeyGet, hnone]⟩
  · simp [toolRequired, List.lookup] at hk
    subst hk
    exact ⟨"'device_id'", by simp [handle_call_tool, dispatch, pyKeyGet, hnone]⟩
  · simp [toolRequired, List.lookup] at hk
    rcases hk with rfl | rfl
    · exact ⟨"'device_id'", by simp [handle_call_tool, dispatch, pyKeyGet, hnone]⟩
    · cases hd : args.lookup "device_id" with
      | none => exact ⟨"'device_id'", by simp [handle_call_tool, dispatch, pyKeyGet, hd]⟩
      | some v =>
        exact ⟨"'action'", by simp [handle_call_tool, dispatch, pyKeyGet, hd, hnone]⟩
  · simp [toolRequired, List.lookup] at hk
    rcases hk with rfl | rfl
    · exact ⟨"'device_id'", by simp [handle_call_tool, dispatch, pyKeyGet, hnone]⟩
    · cases hd : args.lookup "device_id" with
      | none => exact ⟨"'device_id'", by simp [handle_call_tool, dispatch, pyKeyGet, hd]⟩
      | some v =>
        exact ⟨"'volume'", by simp [handle_call_tool, dispatch, pyKeyGet, hd, hnone]⟩
  · simp [toolRequired, List.lookup] at hk
    rcases hk with rfl | rfl
    · exact ⟨"'device_id'", by simp [handle_call_tool, dispatch, pyKeyGet, hnone]⟩
    · cases hd : args.lookup "device_id" with
      | none => exact ⟨"'device_id'", by simp [handle_call_tool, dispatch, pyKeyGet, hd]⟩
      | some v =>
        exact ⟨"'mute'", by simp [handle_call_tool, dispatch, pyKeyGet, hd, hnone]⟩
  · simp [toolRequired, List.lookup] at hk
    rcases hk with rfl | rfl
    · exact ⟨"'device_id'", by simp [handle_call_tool, dispatch, pyKeyGet, hnone]⟩
    · cases hd : args.lookup "device_id" with
      | none => exact ⟨"'device_id'", by simp [handle_call_tool, dispatch, pyKeyGet, hd]⟩
      | some v =>
        exact ⟨"'channel'", by simp [handle_call_tool, dispatch, pyKeyGet, hd, hnone]⟩
  · simp [toolRequired, List.lookup] at hk
    rcases hk with rfl | rfl
    · exact ⟨"'device_id'", by simp [handle_call_tool, dispatch, pyKeyGet, hnone]⟩
    · cases hd : args.lookup "device_id" with
      | none => exact ⟨"'device_id'", by simp [handle_call_tool, dispatch, pyKeyGet, hd]⟩
      | some v =>
        exact ⟨"'input_source'", by simp [handle_call_tool, dispatch, pyKeyGet, hd, hnone]⟩

/-- C9 (witness): the missing-argument theorem applied to the
catalogued `get_device_info` tool and an empty argument mapping. -/
theorem C9_witness :
    ∃ msg, (handle_call_tool (some failBehavior) "get_device_info" []).1
      = [Content.text ("Error executing " ++ "get_device_info" ++ ": " ++ msg)] := by
  have h2 : 2 < handle_list_tools.length := by decide
  exact C9_missing_arg (handle_list_tools.get ⟨2, h2⟩) (List.get_mem _ 2 h2) failBehavior []
    ⟨"device_id", List.Mem.head _, rfl⟩

/-- C10: when `get_device` succeeds but yields an empty — hence falsy
— device object, `get_device_info` renders the same not-found message
as an actual lookup failure: the branch is decided by truthiness of
the returned value. -/
theorem C10_falsy_device (c : ClientBehavior) (X : String)
    (h : c.request (getDeviceRequest X) = .ok (JsonVal.obj [])) :
    (handle_call_tool (some c) "get_device_info" [("device_id", JsonVal.str X)]).1
    = [Content.text ("Device " ++ X ++ " not found")] := by
  simp [handle_call_tool, dispatch, get_device, pyKeyGet, pyStr, pyTruthy, h]

/-- C10 (witness): the falsy-device theorem applied to a transport
answering every request with an empty JSON object. -/
theorem C10_witness :
    (handle_call_tool (some emptyDeviceBehavior) "get_device_info"
      [("device_id", JsonVal.str "abc")]).1
    = [Content.text ("Device " ++ "abc" ++ " not found")] :=
  C10_falsy_device emptyDeviceBehavior "abc" rfl
